import Mathlib

/-!
Verification development for the criterion lifecycle and evidence audit
subsystem of the or360-web repository.

The TypeScript sources are shallowly embedded as Lean functions.  Each
stateful React flow becomes a pure function from an explicit state (plus
parameters standing for the results of the asynchronous store calls, e.g.
an `Option String` holding the error message of a failing call) to the
updated state together with the list of operations issued against the
persistent store and the object store.  Local component state updates
(`setXyz`) become record updates; `supabase` calls become emitted
`StoreOp` values; `Date`/UTC arithmetic is embedded through an exact
proleptic-Gregorian conversion between epoch day numbers and civil dates.

Sources embedded here (line numbers refer to the concatenated snapshot):
* `src/App.tsx` - `handleUpdateStatus` (lines 539-577 and 2566-2614),
  `addLink` (lines 1212-1233 and 2692-2712), `uploadFile` (2638-2690),
  `deleteEvidence` (2715-2737);
* `src/components/EvidenceDrawer.tsx` - `submit` (69-129), `remove`
  (131-143);
* `src/AllocateCriteria.tsx` - `refreshExisting` (114-123),
  `toggleForTemplate` (159-175), `selectAllVisibleToAdd` (177-181),
  `computeDueDate` (189-197), `buildDraftRows` (200-220),
  `confirmInsert` (228-244), `confirmRemove` (257-276).
-/

/-! ## Calendar model

`computeDueDate` does `new Date(baseStr + "T00:00:00Z")`, then
`base.setUTCDate(base.getUTCDate() - offset)`, then
`toISOString().slice(0, 10)`.  In terms of the proleptic-Gregorian
calendar used by JavaScript `Date` UTC accessors this is: parse the
civil date to an epoch day number, subtract `offset` days, format the
resulting day number back as a civil date.  `daysFromCivil` and
`civilFromDays` embed those two conversions (Howard Hinnant style exact
integer algorithms, matching the ECMAScript specification for all
integral day numbers). -/

/-- A civil (year, month, day) date in the proleptic Gregorian calendar,
as rendered in a `YYYY-MM-DD` string. -/
structure CalDate where
  year : Int
  month : Nat
  day : Nat
deriving DecidableEq

/-- Numerator of the year-of-era extraction for a day-of-era `n`. -/
def yearNum (n : Nat) : Nat := n - n / 1460 + n / 36524 - n / 146096

/-- Year of era (0..399) holding day-of-era `n` (0..146096). -/
def yF (n : Nat) : Nat := yearNum n / 365

/-- Day-of-era of March 1 of year-of-era `y`. -/
def marchDoe (y : Nat) : Nat := 365 * y + y / 4 - y / 100

/-- Civil date for day-of-era `doe` inside era `era`. -/
def civilOfDoe (era : Int) (doe : Nat) : CalDate :=
  let yoe := yF doe
  let doy := doe - marchDoe yoe
  let mp := (5 * doy + 2) / 153
  let d := doy - (153 * mp + 2) / 5 + 1
  let m := if mp < 10 then mp + 3 else mp - 9
  ⟨(yoe : Int) + era * 400 + (if m ≤ 2 then 1 else 0), m, d⟩

/-- Civil date of an epoch day number (day 0 = 1970-01-01), as computed
by `Date.prototype.toISOString` for a UTC-midnight time value. -/
def civilFromDays (z : Int) : CalDate :=
  let z' := z + 719468
  let era := z' / 146097
  civilOfDoe era (z' - era * 146097).toNat

/-- Epoch day number of a civil date, as computed by parsing a
`YYYY-MM-DDT00:00:00Z` string with the `Date` constructor. -/
def daysFromCivil (dt : CalDate) : Int :=
  let y := dt.year - (if dt.month ≤ 2 then 1 else 0)
  let era := y / 400
  let yoe := (y - era * 400).toNat
  let doy := (153 * (if 2 < dt.month then dt.month - 3 else dt.month + 9) + 2) / 5 + dt.day - 1
  era * 146097 + ((marchDoe yoe + doy : Nat) : Int) - 719468

/-- Boundary checks used to pin down the year extraction `yF`. -/
def yBnd (y : Nat) : Bool :=
  (yF (marchDoe y) == y) &&
  (y == 0 || yF (marchDoe y - 1) == y - 1) &&
  (decide (399 ≤ y) || yF (marchDoe y + 366) == y + 1)

/-- Roundtrip check for the month-day arithmetic on a day-of-year. -/
def mdOk (doy : Nat) : Bool :=
  let mp := (5 * doy + 2) / 153
  let d := doy - (153 * mp + 2) / 5 + 1
  let m := if mp < 10 then mp + 3 else mp - 9
  ((153 * (if 2 < m then m - 3 else m + 9) + 2) / 5 + d - 1 == doy) &&
  (decide (1 ≤ m)) && (decide (m ≤ 12)) && (decide (1 ≤ d)) && (decide (d ≤ 31)) &&
  ((decide (m ≤ 2)) == (decide (10 ≤ mp)))

/-! ## Evidence and criterion model (App.tsx, EvidenceDrawer.tsx) -/

/-- Evidence kinds: `"note" | "link" | "file"`. -/
inductive EvKind
  | note
  | link
  | file
deriving DecidableEq

/-- Truthiness of an optional string, as used by checks such as
`if (r.template_id)` or `row.file_path &&` in the sources: `null`,
`undefined` and the empty string are falsy. -/
def strTruthy : Option String → Bool
  | Option.none => false
  | Option.some s => !(s == "")

/-- Embedding of `String.prototype.trim`: drop leading and trailing whitespace.
Implemented structurally on the character list so that concrete
instances evaluate inside the kernel. -/
def jsTrim (s : String) : String :=
  String.mk (((s.data.dropWhile Char.isWhitespace).reverse.dropWhile Char.isWhitespace).reverse)

/-- An evidence row as held in component state (the `Note` type of
App.tsx and the `EvidenceRow` type of EvidenceDrawer.tsx). -/
structure Note where
  id : String
  criterion_id : String
  kind : EvKind
  note : Option String
  url : Option String
  uploaded_at : String
  created_by : Option String
  file_path : Option String
  mime_type : Option String
  size_bytes : Option Nat
deriving DecidableEq

/-- The payload of an `insert` into the `evidence` table. -/
structure EvidenceInsert where
  criterion_id : String
  kind : EvKind
  note : Option String
  url : Option String
  file_path : Option String
  mime_type : Option String
  size_bytes : Option Nat
  created_by : Option String
deriving DecidableEq

/-- A criterion row as held in App.tsx state. -/
structure Criterion where
  id : String
  project_id : String
  title : String
  status : String
  owner_email : Option String
  due_date : Option String
  caveat_reason : Option String
deriving DecidableEq

/-- A criteria template row (AllocateCriteria.tsx).  `severity` and
`default_status` are plain strings (the sources use `||` fallbacks on
them), `evidence_required`, `version` and `meta` can be null/undefined
at runtime and are therefore optional. -/
structure CriteriaTemplate where
  id : String
  title : String
  description : Option String
  category : Option String
  severity : String
  default_status : String
  evidence_required : Option Bool
  version : Option Int
  is_active : Bool
  org_id : Option String
  meta : Option (List (String × String))
  default_due_offset_days : Option Int
deriving DecidableEq

/-- A project row (AllocateCriteria.tsx); the two anchor dates are
nullable date-column strings, embedded as civil dates. -/
structure Project where
  id : String
  org_id : String
  name : String
  start_date : Option CalDate
  go_live_date : Option CalDate
deriving DecidableEq

/-- The provenance marker stamped into a synthesized criterion row:
`{ source: "template", created_at: nowIso, template_version: t.version ?? 1 }`. -/
structure AiSource where
  source : String
  created_at : String
  template_version : Int
deriving DecidableEq

/-- A draft criterion row built by `buildDraftRows` for the add batch. -/
structure DraftRow where
  template_id : String
  project_id : String
  org_id : String
  title : String
  description : Option String
  category : Option String
  severity : String
  status : String
  evidence_required : Bool
  due_date : Option CalDate
  ai_source : AiSource
  meta : List (String × String)
deriving DecidableEq

/-- Operations issued against the persistent store / object store. -/
inductive StoreOp
  | rpcSetStatus (id : String) (status : String)
  | insertEvidence (row : EvidenceInsert)
  | dbDeleteEvidence (id : String)
  | storageUpload (path : String)
  | storageRemove (path : String)
  | insertCriteria (rows : List DraftRow)
  | deleteCriteria (project_id : String) (template_ids : List String)
deriving DecidableEq

/-- App.tsx component state relevant to the embedded flows.  `alerts`
records `alert(...)` pop-ups, `err` the `setErr(...)` banner. -/
structure AppState where
  criteria : List Criterion
  notes : List Note
  err : Option String
  alerts : List String
  currentUserEmail : Option String
deriving DecidableEq

/-- Human label mapping of the current `handleUpdateStatus`
(App.tsx lines 2583-2594): nested conditionals ending in `String(status)`. -/
def labelOfV5 (status : String) : String :=
  if status == "not_started" then "Not started"
  else if status == "in_progress" then "In progress"
  else if status == "done" then "Done"
  else if status == "delayed" then "Delayed"
  else if status == "caveat" then "Caveat"
  else status

/-- Human label mapping of the earlier `handleUpdateStatus`
(App.tsx lines 555-559): no `caveat` branch, falls back to
`String(status)`. -/
def labelOfV2 (status : String) : String :=
  if status == "not_started" then "Not started"
  else if status == "in_progress" then "In progress"
  else if status == "done" then "Done"
  else if status == "delayed" then "Delayed"
  else status

/-- The human label table exactly as the specification words it,
for refinement comparison against the source mappings. -/
def humanLabelSpec : String → String
  | "not_started" => "Not started"
  | "in_progress" => "In progress"
  | "done" => "Done"
  | "delayed" => "Delayed"
  | "caveat" => "Caveat"
  | other => other

/-- Embedding of `handleUpdateStatus` of App.tsx lines 2566-2614: snapshot, optimistic
update, status RPC; on error surface it and restore the snapshot; on
success build the label, insert the audit note and prepend a local copy.
`rpcError` is the error of the `set_criterion_status` RPC, `newNoteId`
the locally generated `Math.random()` id, `nowIso` the current time. -/
def handleUpdateStatusV5 (s : AppState) (id status : String) (rpcError : Option String)
    (newNoteId nowIso : String) : AppState × List StoreOp :=
  let snapshot := s.criteria
  let optimistic := s.criteria.map (fun c => if c.id == id then { c with status := status } else c)
  match rpcError with
  | Option.some msg =>
    ({ s with criteria := snapshot, err := Option.some ("Failed to update status: " ++ msg) },
     [StoreOp.rpcSetStatus id status])
  | Option.none =>
    let label := labelOfV5 status
    let txt := "Status changed to: " ++ label
    let ins : EvidenceInsert :=
      { criterion_id := id, kind := EvKind.note, note := Option.some txt, url := Option.none,
        file_path := Option.none, mime_type := Option.none, size_bytes := Option.none,
        created_by := s.currentUserEmail }
    let localNote : Note :=
      { id := newNoteId, criterion_id := id, kind := EvKind.note, note := Option.some txt,
        url := Option.none, uploaded_at := nowIso,
        created_by := Option.some (s.currentUserEmail.getD "Unknown"),
        file_path := Option.none, mime_type := Option.none, size_bytes := Option.none }
    ({ s with criteria := optimistic, notes := localNote :: s.notes },
     [StoreOp.rpcSetStatus id status, StoreOp.insertEvidence ins])

/-- Embedding of `handleUpdateStatus` of App.tsx lines 539-577: identical control flow
to the later version but with the shorter label mapping. -/
def handleUpdateStatusV2 (s : AppState) (id status : String) (rpcError : Option String)
    (newNoteId nowIso : String) : AppState × List StoreOp :=
  let snapshot := s.criteria
  let optimistic := s.criteria.map (fun c => if c.id == id then { c with status := status } else c)
  match rpcError with
  | Option.some msg =>
    ({ s with criteria := snapshot, err := Option.some ("Failed to update status: " ++ msg) },
     [StoreOp.rpcSetStatus id status])
  | Option.none =>
    let label := labelOfV2 status
    let txt := "Status changed to: " ++ label
    let ins : EvidenceInsert :=
      { criterion_id := id, kind := EvKind.note, note := Option.some txt, url := Option.none,
        file_path := Option.none, mime_type := Option.none, size_bytes := Option.none,
        created_by := s.currentUserEmail }
    let localNote : Note :=
      { id := newNoteId, criterion_id := id, kind := EvKind.note, note := Option.some txt,
        url := Option.none, uploaded_at := nowIso,
        created_by := Option.some (s.currentUserEmail.getD "Unknown"),
        file_path := Option.none, mime_type := Option.none, size_bytes := Option.none }
    ({ s with criteria := optimistic, notes := localNote :: s.notes },
     [StoreOp.rpcSetStatus id status, StoreOp.insertEvidence ins])

/-- Embedding of `addLink` of App.tsx lines 1212-1233: insert the link evidence row,
then additionally insert a system cover note `"Link added: <url>"`, the
failure of which is swallowed by `try/catch`. -/
def addLinkV3 (s : AppState) (criterionId url : String) (linkError coverError : Option String)
    (linkRowId coverRowId nowIso : String) : AppState × List StoreOp :=
  let v := jsTrim url
  if v == "" then (s, [])
  else
    let ins : EvidenceInsert :=
      { criterion_id := criterionId, kind := EvKind.link, note := Option.none,
        url := Option.some v, file_path := Option.none, mime_type := Option.none,
        size_bytes := Option.none, created_by := s.currentUserEmail }
    match linkError with
    | Option.some msg => ({ s with err := Option.some msg }, [StoreOp.insertEvidence ins])
    | Option.none =>
      let linkRow : Note :=
        { id := linkRowId, criterion_id := criterionId, kind := EvKind.link,
          note := Option.none, url := Option.some v, uploaded_at := nowIso,
          created_by := s.currentUserEmail, file_path := Option.none,
          mime_type := Option.none, size_bytes := Option.none }
      let s1 := { s with notes := linkRow :: s.notes }
      let coverTxt := "Link added: " ++ v
      let coverIns : EvidenceInsert :=
        { criterion_id := criterionId, kind := EvKind.note, note := Option.some coverTxt,
          url := Option.none, file_path := Option.none, mime_type := Option.none,
          size_bytes := Option.none, created_by := s.currentUserEmail }
      match coverError with
      | Option.some _ =>
        (s1, [StoreOp.insertEvidence ins, StoreOp.insertEvidence coverIns])
      | Option.none =>
        let coverRow : Note :=
          { id := coverRowId, criterion_id := criterionId, kind := EvKind.note,
            note := Option.some coverTxt, url := Option.none, uploaded_at := nowIso,
            created_by := s.currentUserEmail, file_path := Option.none,
            mime_type := Option.none, size_bytes := Option.none }
        ({ s1 with notes := coverRow :: s1.notes },
         [StoreOp.insertEvidence ins, StoreOp.insertEvidence coverIns])

/-- Embedding of `addLink` of App.tsx lines 2692-2712: inserts the link evidence row
only; no cover note is written. -/
def addLinkV5 (s : AppState) (criterionId url : String) (linkError : Option String)
    (rowId nowIso : String) : AppState × List StoreOp :=
  let v := jsTrim url
  if v == "" then (s, [])
  else
    let ins : EvidenceInsert :=
      { criterion_id := criterionId, kind := EvKind.link, note := Option.none,
        url := Option.some v, file_path := Option.none, mime_type := Option.none,
        size_bytes := Option.none, created_by := s.currentUserEmail }
    match linkError with
    | Option.some msg => ({ s with err := Option.some msg }, [StoreOp.insertEvidence ins])
    | Option.none =>
      let row : Note :=
        { id := rowId, criterion_id := criterionId, kind := EvKind.link,
          note := Option.none, url := Option.some v, uploaded_at := nowIso,
          created_by := s.currentUserEmail, file_path := Option.none,
          mime_type := Option.none, size_bytes := Option.none }
      ({ s with notes := row :: s.notes }, [StoreOp.insertEvidence ins])

/-- A selected file: name, MIME type (`file.type`, possibly empty) and
byte size. -/
structure FileBlob where
  name : String
  mime : String
  size : Nat
deriving DecidableEq

/-- Embedding of `uploadFile` of App.tsx lines 2638-2690: upload the blob under a
timestamped path, insert the file evidence row, then insert a cover note
`"File uploaded: <name>"` whose failure is swallowed. -/
def uploadFileV5 (s : AppState) (criterionId : String) (f : FileBlob)
    (uploadError insError coverError : Option String) (nowMs : Nat)
    (publicUrl : Option String) (fileRowId coverRowId nowIso : String) :
    AppState × List StoreOp :=
  let path := criterionId ++ "/" ++ toString nowMs ++ "-" ++ f.name
  match uploadError with
  | Option.some msg =>
    ({ s with alerts := s.alerts ++ ["Upload failed: " ++ msg] }, [StoreOp.storageUpload path])
  | Option.none =>
    let ins : EvidenceInsert :=
      { criterion_id := criterionId, kind := EvKind.file, note := Option.none,
        url := publicUrl, file_path := Option.some path,
        mime_type := (if f.mime == "" then Option.none else Option.some f.mime),
        size_bytes := Option.some f.size, created_by := s.currentUserEmail }
    match insError with
    | Option.some msg =>
      ({ s with err := Option.some msg }, [StoreOp.storageUpload path, StoreOp.insertEvidence ins])
    | Option.none =>
      let fileRow : Note :=
        { id := fileRowId, criterion_id := criterionId, kind := EvKind.file,
          note := Option.none, url := publicUrl, uploaded_at := nowIso,
          created_by := s.currentUserEmail, file_path := Option.some path,
          mime_type := (if f.mime == "" then Option.none else Option.some f.mime),
          size_bytes := Option.some f.size }
      let s1 := { s with notes := fileRow :: s.notes }
      let coverTxt := "File uploaded: " ++ f.name
      let coverIns : EvidenceInsert :=
        { criterion_id := criterionId, kind := EvKind.note, note := Option.some coverTxt,
          url := Option.none, file_path := Option.none, mime_type := Option.none,
          size_bytes := Option.none, created_by := s.currentUserEmail }
      match coverError with
      | Option.some _ =>
        (s1, [StoreOp.storageUpload path, StoreOp.insertEvidence ins,
              StoreOp.insertEvidence coverIns])
      | Option.none =>
        let coverRow : Note :=
          { id := coverRowId, criterion_id := criterionId, kind := EvKind.note,
            note := Option.some coverTxt, url := Option.none, uploaded_at := nowIso,
            created_by := s.currentUserEmail, file_path := Option.none,
            mime_type := Option.none, size_bytes := Option.none }
        ({ s1 with notes := coverRow :: s1.notes },
         [StoreOp.storageUpload path, StoreOp.insertEvidence ins,
          StoreOp.insertEvidence coverIns])

/-- Embedding of `deleteEvidence` of App.tsx lines 2715-2737: look the row up in local
state, refuse for note-kind rows (alert, nothing issued), otherwise
best-effort storage removal for files, then delete the database row. -/
def deleteEvidence (s : AppState) (evidenceId : String) (dbError : Option String) :
    AppState × List StoreOp :=
  match s.notes.find? (fun n => n.id == evidenceId) with
  | Option.none => (s, [])
  | Option.some row =>
    if row.kind == EvKind.note then
      ({ s with alerts := s.alerts ++ ["Activity notes cannot be deleted."] }, [])
    else
      let ops0 := if row.kind == EvKind.file && strTruthy row.file_path then
          [StoreOp.storageRemove (row.file_path.getD "")] else []
      match dbError with
      | Option.some msg =>
        ({ s with err := Option.some msg }, ops0 ++ [StoreOp.dbDeleteEvidence evidenceId])
      | Option.none =>
        ({ s with notes := s.notes.filter (fun n => !(n.id == evidenceId)) },
         ops0 ++ [StoreOp.dbDeleteEvidence evidenceId])

/-- Composer mode of the unified evidence drawer: `"none" | "link" | "file"`. -/
inductive ComposerMode
  | noneMode
  | linkMode
  | fileMode
deriving DecidableEq

/-- EvidenceDrawer.tsx component state. -/
structure DrawerState where
  rows : List Note
  narrative : String
  mode : ComposerMode
  url : String
  file : Option FileBlob
  toasts : List String
deriving DecidableEq

/-- The composer reset applied after a successful submission. -/
def resetComposer (s : DrawerState) : DrawerState :=
  { s with narrative := "", mode := ComposerMode.noneMode, url := "", file := Option.none }

/-- Embedding of `submit` of EvidenceDrawer.tsx lines 69-129: requires a criterion and
a non-blank narrative before anything is issued, then inserts a note,
link or file evidence row according to the composer mode (uploading the
blob first for files). -/
def EvidenceDrawer.submit (s : DrawerState) (criterionId : Option String)
    (currentUserEmail : Option String) (dbError uploadError : Option String)
    (newRowId nowIso : String) (nowMs : Nat) (publicUrl : Option String) :
    DrawerState × List StoreOp :=
  match criterionId with
  | Option.none => (s, [])
  | Option.some cid =>
    let text := jsTrim s.narrative
    if text == "" then
      ({ s with toasts := s.toasts ++ ["Please add a short narrative/description."] }, [])
    else
      match s.mode with
      | ComposerMode.noneMode =>
        let ins : EvidenceInsert :=
          { criterion_id := cid, kind := EvKind.note, note := Option.some text,
            url := Option.none, file_path := Option.none, mime_type := Option.none,
            size_bytes := Option.none, created_by := currentUserEmail }
        match dbError with
        | Option.some msg =>
          ({ s with toasts := s.toasts ++ [msg] }, [StoreOp.insertEvidence ins])
        | Option.none =>
          let row : Note :=
            { id := newRowId, criterion_id := cid, kind := EvKind.note,
              note := Option.some text, url := Option.none, uploaded_at := nowIso,
              created_by := currentUserEmail, file_path := Option.none,
              mime_type := Option.none, size_bytes := Option.none }
          (resetComposer { s with rows := row :: s.rows, toasts := s.toasts ++ ["Note added"] },
           [StoreOp.insertEvidence ins])
      | ComposerMode.linkMode =>
        let u := jsTrim s.url
        if u == "" then ({ s with toasts := s.toasts ++ ["Paste a valid URL."] }, [])
        else
          let ins : EvidenceInsert :=
            { criterion_id := cid, kind := EvKind.link, note := Option.some text,
              url := Option.some u, file_path := Option.none, mime_type := Option.none,
              size_bytes := Option.none, created_by := currentUserEmail }
          match dbError with
          | Option.some msg =>
            ({ s with toasts := s.toasts ++ [msg] }, [StoreOp.insertEvidence ins])
          | Option.none =>
            let row : Note :=
              { id := newRowId, criterion_id := cid, kind := EvKind.link,
                note := Option.some text, url := Option.some u, uploaded_at := nowIso,
                created_by := currentUserEmail, file_path := Option.none,
                mime_type := Option.none, size_bytes := Option.none }
            (resetComposer
               { s with rows := row :: s.rows, toasts := s.toasts ++ ["Link added"] },
             [StoreOp.insertEvidence ins])
      | ComposerMode.fileMode =>
        match s.file with
        | Option.none => ({ s with toasts := s.toasts ++ ["Choose a file to upload."] }, [])
        | Option.some f =>
          let path := cid ++ "/" ++ toString nowMs ++ "-" ++ f.name
          match uploadError with
          | Option.some msg =>
            ({ s with toasts := s.toasts ++ [msg] }, [StoreOp.storageUpload path])
          | Option.none =>
            let ins : EvidenceInsert :=
              { criterion_id := cid, kind := EvKind.file, note := Option.some text,
                url := publicUrl, file_path := Option.some path,
                mime_type := (if f.mime == "" then Option.none else Option.some f.mime),
                size_bytes := Option.some f.size, created_by := currentUserEmail }
            match dbError with
            | Option.some msg =>
              ({ s with toasts := s.toasts ++ [msg] },
               [StoreOp.storageUpload path, StoreOp.insertEvidence ins])
            | Option.none =>
              let row : Note :=
                { id := newRowId, criterion_id := cid, kind := EvKind.file,
                  note := Option.some text, url := publicUrl, uploaded_at := nowIso,
                  created_by := currentUserEmail, file_path := Option.some path,
                  mime_type := (if f.mime == "" then Option.none else Option.some f.mime),
                  size_bytes := Option.some f.size }
              (resetComposer
                 { s with rows := row :: s.rows, toasts := s.toasts ++ ["File uploaded"] },
               [StoreOp.storageUpload path, StoreOp.insertEvidence ins])

/-- Embedding of `remove` of EvidenceDrawer.tsx lines 131-143: best-effort storage
removal for file rows, then unconditional deletion of the database row;
no guard of any kind on the row kind. -/
def EvidenceDrawer.remove (s : DrawerState) (row : Note) (dbError : Option String) :
    DrawerState × List StoreOp :=
  let ops0 := if row.kind == EvKind.file && strTruthy row.file_path then
      [StoreOp.storageRemove (row.file_path.getD "")] else []
  match dbError with
  | Option.some msg =>
    ({ s with toasts := s.toasts ++ [msg] }, ops0 ++ [StoreOp.dbDeleteEvidence row.id])
  | Option.none =>
    ({ s with rows := s.rows.filter (fun r => !(r.id == row.id)),
              toasts := s.toasts ++ ["Evidence removed"] },
     ops0 ++ [StoreOp.dbDeleteEvidence row.id])

/-! ## Template allocator model (AllocateCriteria.tsx) -/

/-- The due-date anchor selector: `"go_live" | "start"`. -/
inductive DueAnchor
  | go_live
  | start
deriving DecidableEq

/-- The anchor date chosen on a (possibly missing) project. -/
def anchorDateOf (p : Option Project) (anchor : DueAnchor) : Option CalDate :=
  match p with
  | Option.none => Option.none
  | Option.some p =>
    match anchor with
    | DueAnchor.go_live => p.go_live_date
    | DueAnchor.start => p.start_date

/-- Embedding of `computeDueDate` of AllocateCriteria.tsx lines 189-197: null when the
project is missing, the offset is null or the chosen anchor date is
null; otherwise parse the anchor date, subtract the offset in whole UTC
days and format the result. -/
def computeDueDate (t : CriteriaTemplate) (p : Option Project) (anchor : DueAnchor) :
    Option CalDate :=
  match p, t.default_due_offset_days with
  | Option.none, _ => Option.none
  | _, Option.none => Option.none
  | Option.some p, Option.some offset =>
    match (match anchor with
           | DueAnchor.go_live => p.go_live_date
           | DueAnchor.start => p.start_date) with
    | Option.none => Option.none
    | Option.some base => Option.some (civilFromDays (daysFromCivil base - offset))

/-- A row of the `criteria` table as relevant to the allocator: rows
inserted by `confirmInsert` carry their template id, manually created
rows have none. -/
structure StoreCriterion where
  project_id : String
  template_id : Option String
deriving DecidableEq

/-- Embedding of `refreshExisting` of AllocateCriteria.tsx lines 114-123: query the
`template_id` column of the criteria of the chosen project and collect
the truthy values into the existing set. -/
def refreshExisting (store : List StoreCriterion) (projectId : Option String) : List String :=
  match projectId with
  | Option.none => []
  | Option.some pid =>
    (store.filter (fun r => r.project_id == pid)).filterMap
      (fun r => match r.template_id with
        | Option.none => Option.none
        | Option.some t => if t == "" then Option.none else Option.some t)

/-- Allocator component state relevant to the embedded flows. -/
structure AllocState where
  projectId : Option String
  orgId : Option String
  existing : List String
  selectedToAdd : List String
  selectedToRemove : List String
  draftRows : List DraftRow
  addDrawerOpen : Bool
  removeDrawerOpen : Bool
  inserting : Bool
  removing : Bool
  alerts : List String
deriving DecidableEq

/-- JS `Set.prototype.add` on a set represented by a list. -/
def setAdd (l : List String) (id : String) : List String :=
  if l.contains id then l else id :: l

/-- JS `Set.prototype.delete` on a set represented by a list. -/
def setDelete (l : List String) (id : String) : List String :=
  l.filter (fun x => !(x == id))

/-- Embedding of `buildDraftRows` of AllocateCriteria.tsx lines 200-220: for each
template that is selected to add and not already present, synthesize a
draft criterion row with fallback defaults.  The case of a missing
project entry (where the source would throw on `p.org_id`) yields no
rows. -/
def buildDraftRows (projectId orgId : Option String)
    (projectMap : List (String × Project)) (templates : List CriteriaTemplate)
    (selectedToAdd existing : List String) (anchor : DueAnchor) (nowIso : String) :
    List DraftRow :=
  match projectId, orgId with
  | Option.some pid, Option.some _ =>
    match projectMap.lookup pid with
    | Option.none => []
    | Option.some p =>
      (templates.filter (fun t => selectedToAdd.contains t.id && !(existing.contains t.id))).map
        (fun t =>
          { template_id := t.id
            project_id := pid
            org_id := p.org_id
            title := t.title
            description := t.description
            category := t.category
            severity := if t.severity == "" then "med" else t.severity
            status := if t.default_status == "" then "not_started" else t.default_status
            evidence_required := t.evidence_required.getD true
            due_date := computeDueDate t (Option.some p) anchor
            ai_source := { source := "template", created_at := nowIso,
                           template_version := t.version.getD 1 }
            meta := t.meta.getD [] })
  | _, _ => []

/-- Embedding of `confirmInsert` of AllocateCriteria.tsx lines 228-244: guard, then a
single batched insert of the draft rows; on failure surface one alert
and change nothing else; on success re-fetch the existing set from the
store, close the drawer and clear the draft rows and the add
selection. -/
def confirmInsert (s : AllocState) (store : List StoreCriterion)
    (insertError : Option String) : AllocState × List StoreCriterion × List StoreOp :=
  match s.projectId, s.orgId with
  | Option.some _, Option.some _ =>
    if s.draftRows.isEmpty then (s, store, [])
    else
      match insertError with
      | Option.some msg =>
        ({ s with inserting := false,
                  alerts := s.alerts ++ ["Failed to add criteria: " ++ msg] },
         store, [StoreOp.insertCriteria s.draftRows])
      | Option.none =>
        let store' := store ++ s.draftRows.map
          (fun r => { project_id := r.project_id, template_id := Option.some r.template_id })
        ({ s with inserting := false,
                  existing := refreshExisting store' s.projectId,
                  addDrawerOpen := false,
                  draftRows := [],
                  selectedToAdd := [] },
         store', [StoreOp.insertCriteria s.draftRows])
  | _, _ => (s, store, [])

/-- Embedding of `confirmRemove` of AllocateCriteria.tsx lines 257-276: guard, then a
single batched delete filtered by project id and the selected template
ids; on failure surface one alert and change nothing else; on success
re-fetch the existing set, clear the remove selection and close the
drawer. -/
def confirmRemove (s : AllocState) (store : List StoreCriterion)
    (deleteError : Option String) : AllocState × List StoreCriterion × List StoreOp :=
  match s.projectId with
  | Option.some pid =>
    if s.selectedToRemove.isEmpty then (s, store, [])
    else
      match deleteError with
      | Option.some msg =>
        ({ s with removing := false,
                  alerts := s.alerts ++ ["Failed to remove: " ++ msg] },
         store, [StoreOp.deleteCriteria pid s.selectedToRemove])
      | Option.none =>
        let store' := store.filter (fun r =>
          !(r.project_id == pid &&
            (match r.template_id with
             | Option.some t => s.selectedToRemove.contains t
             | Option.none => false)))
        ({ s with removing := false,
                  existing := refreshExisting store' s.projectId,
                  selectedToRemove := [],
                  removeDrawerOpen := false },
         store', [StoreOp.deleteCriteria pid s.selectedToRemove])
  | Option.none => (s, store, [])

/-! ## Selection subsystem as a transition system (for the add/remove
selection invariants) -/

/-- The selection-relevant fragment of the allocator state. -/
structure AllocSelState where
  existing : List String
  selectedToAdd : List String
  selectedToRemove : List String
deriving DecidableEq

/-- Embedding of `toggleForTemplate` of AllocateCriteria.tsx lines 159-175: toggle the
remove selection for already-present templates, the add selection
otherwise. -/
def toggleForTemplate (s : AllocSelState) (id : String) : AllocSelState :=
  if s.existing.contains id then
    { s with selectedToRemove :=
        if s.selectedToRemove.contains id then setDelete s.selectedToRemove id
        else setAdd s.selectedToRemove id }
  else
    { s with selectedToAdd :=
        if s.selectedToAdd.contains id then setDelete s.selectedToAdd id
        else setAdd s.selectedToAdd id }

/-- Embedding of `selectAllVisibleToAdd` of AllocateCriteria.tsx lines 177-181: add
every visible template that is not already present. -/
def selectAllVisibleToAdd (s : AllocSelState) (visible : List String) : AllocSelState :=
  { s with selectedToAdd :=
      (visible.foldl (fun acc id => if s.existing.contains id then acc else setAdd acc id)
        s.selectedToAdd) }

/-- Events of the selection subsystem.  `refresh` carries the template-id
set returned by the store (project switch or reload); the commit events
carry the re-fetched set and clear the corresponding selection, exactly
as `confirmInsert` / `confirmRemove` do; failed commits change nothing. -/
inductive AllocEvent
  | toggle (id : String)
  | selectAllVisible (visible : List String)
  | clearAdd
  | clearRemove
  | refresh (ids : List String)
  | commitAddOk (ids : List String)
  | commitAddFail
  | commitRemoveOk (ids : List String)
  | commitRemoveFail

/-- One step of the selection subsystem. -/
def allocStep (s : AllocSelState) : AllocEvent → AllocSelState
  | AllocEvent.toggle id => toggleForTemplate s id
  | AllocEvent.selectAllVisible v => selectAllVisibleToAdd s v
  | AllocEvent.clearAdd => { s with selectedToAdd := [] }
  | AllocEvent.clearRemove => { s with selectedToRemove := [] }
  | AllocEvent.refresh ids => { s with existing := ids }
  | AllocEvent.commitAddOk ids => { s with existing := ids, selectedToAdd := [] }
  | AllocEvent.commitAddFail => s
  | AllocEvent.commitRemoveOk ids => { s with existing := ids, selectedToRemove := [] }
  | AllocEvent.commitRemoveFail => s

/-- Reachability from the initial mount state (all three sets empty). -/
inductive AllocReachable : AllocSelState → Prop
  | init : AllocReachable ⟨[], [], []⟩
  | step (s : AllocSelState) (e : AllocEvent) :
      AllocReachable s → AllocReachable (allocStep s e)

/-- The selection invariant asserted by the specification: the add
selection only holds ids outside the existing set, the remove selection
only ids inside it. -/
def SelInv (s : AllocSelState) : Prop :=
  (∀ id ∈ s.selectedToAdd, id ∉ s.existing) ∧
  (∀ id ∈ s.selectedToRemove, id ∈ s.existing)

/-- The addable partition of the template catalog. -/
def addablePart (catalog : List CriteriaTemplate) (existing : List String) :
    List CriteriaTemplate :=
  catalog.filter (fun t => !(existing.contains t.id))

/-- The already-present partition of the template catalog. -/
def presentPart (catalog : List CriteriaTemplate) (existing : List String) :
    List CriteriaTemplate :=
  catalog.filter (fun t => existing.contains t.id)

/-! ## Calendar correctness: formatting inverts parsing exactly -/

set_option maxRecDepth 2000 in
theorem yBnd_all : ∀ y < 400, yBnd y = true := by decide

theorem yearNum_mono : ∀ {m n : Nat}, m ≤ n → yearNum m ≤ yearNum n := by
  intro m n h
  induction h with
  | refl => exact Nat.le_refl _
  | step h ih =>
    refine ih.trans ?_
    unfold yearNum
    omega

theorem yF_mono {m n : Nat} (h : m ≤ n) : yF m ≤ yF n :=
  Nat.div_le_div_right (yearNum_mono h)

theorem yF_le_399 {n : Nat} (hn : n < 146097) : yF n ≤ 399 := by
  have h1 : yF n ≤ yF 146096 := yF_mono (by omega)
  have h2 : yF 146096 = 399 := by decide
  omega

theorem marchDoe_le {n : Nat} (hn : n < 146097) : marchDoe (yF n) ≤ n := by
  by_cases h0 : yF n = 0
  · simp [h0, marchDoe]
  · by_contra hlt
    push_neg at hlt
    have hy : yF n < 400 := by have := yF_le_399 hn; omega
    have hb := yBnd_all (yF n) hy
    simp only [yBnd, Bool.and_eq_true, Bool.or_eq_true, beq_iff_eq,
      decide_eq_true_eq] at hb
    obtain ⟨⟨-, hb2⟩, -⟩ := hb
    rcases hb2 with h' | h'
    · exact h0 (by omega)
    · have hmono : yF n ≤ yF (marchDoe (yF n) - 1) := yF_mono (by omega)
      rw [h'] at hmono
      omega

theorem doy_le_365 {n : Nat} (hn : n < 146097) : n - marchDoe (yF n) ≤ 365 := by
  by_cases h399 : 399 ≤ yF n
  · have h1 : yF n ≤ 399 := yF_le_399 hn
    have h2 : yF n = 399 := by omega
    have h3 : marchDoe 399 = 145731 := by decide
    rw [h2, h3]; omega
  · by_contra hgt
    push_neg at hgt
    have hy : yF n < 400 := by have := yF_le_399 hn; omega
    have hb := yBnd_all (yF n) hy
    simp only [yBnd, Bool.and_eq_true, Bool.or_eq_true, beq_iff_eq,
      decide_eq_true_eq] at hb
    obtain ⟨-, hb3⟩ := hb
    rcases hb3 with h' | h'
    · omega
    · have hle : marchDoe (yF n) ≤ n := marchDoe_le hn
      have hmono : yF (marchDoe (yF n) + 366) ≤ yF n := yF_mono (by omega)
      rw [h'] at hmono
      omega

set_option maxRecDepth 2000 in
theorem mdOk_all : ∀ doy < 366, mdOk doy = true := by decide

set_option maxHeartbeats 1600000 in
theorem daysFromCivil_civilOfDoe (era : Int) (n : Nat) (hn : n < 146097) :
    daysFromCivil (civilOfDoe era n) = era * 146097 + n - 719468 := by
  have hy : yF n ≤ 399 := yF_le_399 hn
  have hml : marchDoe (yF n) ≤ n := marchDoe_le hn
  have hdoy : n - marchDoe (yF n) ≤ 365 := doy_le_365 hn
  have hmd := mdOk_all (n - marchDoe (yF n)) (by omega)
  simp only [mdOk, Bool.and_eq_true, beq_iff_eq, decide_eq_true_eq] at hmd
  obtain ⟨⟨⟨⟨⟨hrt, hm1⟩, hm12⟩, hd1⟩, hd31⟩, hm2iff⟩ := hmd
  simp only [civilOfDoe, daysFromCivil]
  set yoe := yF n with hyoe
  set doy := n - marchDoe yoe with hdoydef
  set mp := (5 * doy + 2) / 153 with hmp
  set d := doy - (153 * mp + 2) / 5 + 1 with hd
  set m := if mp < 10 then mp + 3 else mp - 9 with hm
  set e := (if 2 < m then m - 3 else m + 9) with he
  by_cases hm2 : m ≤ 2
  · simp only [if_pos hm2]
    have hera2 : ((yoe : Int) + era * 400 + 1 - 1) / 400 = era := by omega
    rw [hera2]
    have hyoe2 : (((yoe : Int) + era * 400 + 1 - 1) - era * 400).toNat = yoe := by omega
    rw [hyoe2]
    omega
  · simp only [if_neg hm2]
    have hera2 : ((yoe : Int) + era * 400 + 0 - 0) / 400 = era := by omega
    rw [hera2]
    have hyoe2 : (((yoe : Int) + era * 400 + 0 - 0) - era * 400).toNat = yoe := by omega
    rw [hyoe2]
    omega

theorem daysFromCivil_civilFromDays (z : Int) : daysFromCivil (civilFromDays z) = z := by
  show daysFromCivil
      (civilOfDoe ((z + 719468) / 146097)
        ((z + 719468) - ((z + 719468) / 146097) * 146097).toNat) = z
  rw [daysFromCivil_civilOfDoe _ _ (by omega)]
  omega

/-! ## C1: note-kind evidence and deletion -/

/-- C1 (amended part): the App-level `deleteEvidence` refuses to delete a
note-kind entry: it surfaces the "Activity notes cannot be deleted"
alert, issues no operation against the persistence layer or the object
store, and leaves the evidence list untouched. -/
theorem deleteEvidence_note_guard (s : AppState) (evidenceId : String)
    (dbError : Option String) (row : Note)
    (hfind : s.notes.find? (fun n => n.id == evidenceId) = Option.some row)
    (hkind : row.kind = EvKind.note) :
    deleteEvidence s evidenceId dbError =
      ({ s with alerts := s.alerts ++ ["Activity notes cannot be deleted."] }, []) ∧
    (deleteEvidence s evidenceId dbError).1.notes = s.notes := by
  constructor
  · simp [deleteEvidence, hfind, hkind]
  · simp [deleteEvidence, hfind, hkind]

/-- C1 (witness): the guard theorem applied to a concrete state holding a
single note-kind entry. -/
theorem deleteEvidence_note_guard_witness :
    deleteEvidence
        ⟨[], [⟨"e1", "c1", EvKind.note, Option.some "a note", Option.none, "t0",
               Option.none, Option.none, Option.none, Option.none⟩],
         Option.none, [], Option.none⟩ "e1" Option.none =
      (⟨[], [⟨"e1", "c1", EvKind.note, Option.some "a note", Option.none, "t0",
              Option.none, Option.none, Option.none, Option.none⟩],
        Option.none, ["Activity notes cannot be deleted."], Option.none⟩, []) :=
  (deleteEvidence_note_guard
    ⟨[], [⟨"e1", "c1", EvKind.note, Option.some "a note", Option.none, "t0",
           Option.none, Option.none, Option.none, Option.none⟩],
     Option.none, [], Option.none⟩ "e1" Option.none
    ⟨"e1", "c1", EvKind.note, Option.some "a note", Option.none, "t0",
     Option.none, Option.none, Option.none, Option.none⟩ (by rfl) rfl).1

/-- C1 (counterexample): the EvidenceDrawer `remove` path has no kind
guard: deleting a note-kind entry issues a database delete and shrinks
the evidence list, so the claim is false of that deletion flow. -/
theorem drawerRemove_deletes_note :
    ¬ ((EvidenceDrawer.remove
          ⟨[⟨"e1", "c1", EvKind.note, Option.some "a note", Option.none, "t0",
             Option.none, Option.none, Option.none, Option.none⟩],
           "", ComposerMode.noneMode, "", Option.none, []⟩
          ⟨"e1", "c1", EvKind.note, Option.some "a note", Option.none, "t0",
           Option.none, Option.none, Option.none, Option.none⟩
          Option.none).2 = [] ∧
       (EvidenceDrawer.remove
          ⟨[⟨"e1", "c1", EvKind.note, Option.some "a note", Option.none, "t0",
             Option.none, Option.none, Option.none, Option.none⟩],
           "", ComposerMode.noneMode, "", Option.none, []⟩
          ⟨"e1", "c1", EvKind.note, Option.some "a note", Option.none, "t0",
           Option.none, Option.none, Option.none, Option.none⟩
          Option.none).1.rows.length = 1) ∧
    (EvidenceDrawer.remove
        ⟨[⟨"e1", "c1", EvKind.note, Option.some "a note", Option.none, "t0",
           Option.none, Option.none, Option.none, Option.none⟩],
         "", ComposerMode.noneMode, "", Option.none, []⟩
        ⟨"e1", "c1", EvKind.note, Option.some "a note", Option.none, "t0",
         Option.none, Option.none, Option.none, Option.none⟩
        Option.none).2 = [StoreOp.dbDeleteEvidence "e1"] := by
  constructor
  · decide
  · rfl

/-! ## C2: audit note on successful status change -/

/-- C2 (amended part): for every recognized status, a successful
`handleUpdateStatus` (current version) issues the status RPC first and
then exactly one note-kind evidence insert whose text is
`"Status changed to: "` followed by the human label of the
specification table; one local note is prepended; and when the RPC
fails, no evidence insert is issued at all. -/
theorem setStatus_appends_audit_note (s : AppState) (id status newNoteId nowIso : String)
    (hstatus : status ∈ ["not_started", "in_progress", "done", "delayed", "caveat"]) :
    (handleUpdateStatusV5 s id status Option.none newNoteId nowIso).2 =
      [StoreOp.rpcSetStatus id status,
       StoreOp.insertEvidence
         { criterion_id := id, kind := EvKind.note,
           note := Option.some ("Status changed to: " ++ humanLabelSpec status),
           url := Option.none, file_path := Option.none, mime_type := Option.none,
           size_bytes := Option.none, created_by := s.currentUserEmail }] ∧
    (handleUpdateStatusV5 s id status Option.none newNoteId nowIso).1.notes.length =
      s.notes.length + 1 ∧
    (∀ msg, (handleUpdateStatusV5 s id status (Option.some msg) newNoteId nowIso).2 =
      [StoreOp.rpcSetStatus id status]) := by
  simp only [List.mem_cons, List.mem_singleton, List.not_mem_nil, or_false] at hstatus
  rcases hstatus with h | h | h | h | h <;> subst h <;>
    exact ⟨rfl, by simp [handleUpdateStatusV5], fun msg => rfl⟩

/-- C2 (witness): a successful status change to `caveat` issues the RPC
followed by one audit-note insert reading "Status changed to: Caveat". -/
theorem setStatus_appends_audit_note_witness :
    (handleUpdateStatusV5
        ⟨[⟨"c1", "p1", "T", "not_started", Option.none, Option.none, Option.none⟩],
         [], Option.none, [], Option.none⟩
        "c1" "caveat" Option.none "n1" "t1").2 =
      [StoreOp.rpcSetStatus "c1" "caveat",
       StoreOp.insertEvidence
         { criterion_id := "c1", kind := EvKind.note,
           note := Option.some ("Status changed to: " ++ humanLabelSpec "caveat"),
           url := Option.none, file_path := Option.none, mime_type := Option.none,
           size_bytes := Option.none, created_by := Option.none }] :=
  (setStatus_appends_audit_note
    ⟨[⟨"c1", "p1", "T", "not_started", Option.none, Option.none, Option.none⟩],
     [], Option.none, [], Option.none⟩
    "c1" "caveat" "n1" "t1" (by decide)).1

/-- C2 (counterexample): the earlier `handleUpdateStatus` (App.tsx line
539) has no `caveat` branch in its label mapping, so a successful
change to `caveat` writes "Status changed to: caveat", not the label
"Status changed to: Caveat" required by the claim. -/
theorem setStatus_caveat_label_fallthrough :
    (handleUpdateStatusV2
        ⟨[⟨"c1", "p1", "T", "not_started", Option.none, Option.none, Option.none⟩],
         [], Option.none, [], Option.none⟩
        "c1" "caveat" Option.none "n1" "t1").2 =
      [StoreOp.rpcSetStatus "c1" "caveat",
       StoreOp.insertEvidence
         { criterion_id := "c1", kind := EvKind.note,
           note := Option.some "Status changed to: caveat",
           url := Option.none, file_path := Option.none, mime_type := Option.none,
           size_bytes := Option.none, created_by := Option.none }] ∧
    "Status changed to: caveat" ≠ "Status changed to: Caveat" := by
  constructor
  · rfl
  · decide

/-! ## C3: rollback on failed status persistence -/

/-- C3: when the status RPC fails, `handleUpdateStatus` restores the
exact pre-operation criteria snapshot, surfaces the error, issues no
evidence insert and leaves the evidence list unchanged. -/
theorem setStatus_rollback_on_failure (s : AppState) (id status msg newNoteId nowIso : String) :
    handleUpdateStatusV5 s id status (Option.some msg) newNoteId nowIso =
      ({ s with err := Option.some ("Failed to update status: " ++ msg) },
       [StoreOp.rpcSetStatus id status]) ∧
    (handleUpdateStatusV5 s id status (Option.some msg) newNoteId nowIso).1.criteria =
      s.criteria ∧
    (handleUpdateStatusV5 s id status (Option.some msg) newNoteId nowIso).1.notes =
      s.notes := by
  exact ⟨rfl, rfl, rfl⟩

/-! ## C4: due-date arithmetic -/

/-- C4: `computeDueDate` returns null exactly when the offset or the
chosen anchor date is null; otherwise it returns the civil date lying
exactly `offset` whole UTC days before the anchor (witnessed on epoch
day numbers); in particular anchor 2025-06-30 with offset 14 yields
2025-06-16. -/
theorem computeDueDate_spec (t : CriteriaTemplate) (p : Option Project) (a : DueAnchor) :
    (computeDueDate t p a = Option.none ↔
      (t.default_due_offset_days = Option.none ∨ anchorDateOf p a = Option.none)) ∧
    (∀ off base, t.default_due_offset_days = Option.some off →
      anchorDateOf p a = Option.some base →
      ∃ d, computeDueDate t p a = Option.some d ∧
        daysFromCivil d = daysFromCivil base - off) ∧
    computeDueDate
      ⟨"t1", "T", Option.none, Option.none, "med", "not_started", Option.none,
       Option.none, true, Option.none, Option.none, Option.some 14⟩
      (Option.some ⟨"p1", "o1", "P", Option.none, Option.some ⟨2025, 6, 30⟩⟩)
      DueAnchor.go_live = Option.some ⟨2025, 6, 16⟩ := by
  refine ⟨?_, ?_, ?_⟩
  · rcases p with _ | p
    · simp [computeDueDate, anchorDateOf]
    · rcases hoff : t.default_due_offset_days with _ | off
      · simp [computeDueDate, anchorDateOf, hoff]
      · rcases a
        · rcases hgl : p.go_live_date with _ | base <;>
            simp [computeDueDate, anchorDateOf, hoff, hgl]
        · rcases hsd : p.start_date with _ | base <;>
            simp [computeDueDate, anchorDateOf, hoff, hsd]
  · intro off base hoff hanchor
    rcases p with _ | p
    · simp [anchorDateOf] at hanchor
    · rcases a
      · simp only [anchorDateOf] at hanchor
        exact ⟨civilFromDays (daysFromCivil base - off),
          by simp [computeDueDate, hoff, hanchor],
          daysFromCivil_civilFromDays _⟩
      · simp only [anchorDateOf] at hanchor
        exact ⟨civilFromDays (daysFromCivil base - off),
          by simp [computeDueDate, hoff, hanchor],
          daysFromCivil_civilFromDays _⟩
  · decide

/-- C4 (witness): the general day-difference clause applied at offset 14
and anchor 2025-06-30. -/
theorem computeDueDate_spec_witness :
    ∃ d, computeDueDate
        ⟨"t1", "T", Option.none, Option.none, "med", "not_started", Option.none,
         Option.none, true, Option.none, Option.none, Option.some 14⟩
        (Option.some ⟨"p1", "o1", "P", Option.none, Option.some ⟨2025, 6, 30⟩⟩)
        DueAnchor.go_live = Option.some d ∧
      daysFromCivil d = daysFromCivil ⟨2025, 6, 30⟩ - 14 :=
  (computeDueDate_spec
    ⟨"t1", "T", Option.none, Option.none, "med", "not_started", Option.none,
     Option.none, true, Option.none, Option.none, Option.some 14⟩
    (Option.some ⟨"p1", "o1", "P", Option.none, Option.some ⟨2025, 6, 30⟩⟩)
    DueAnchor.go_live).2.1 14 ⟨2025, 6, 30⟩ rfl rfl

/-! ## C5: narrative required before any write -/

/-- C5 (amended part): the unified composer submit rejects a blank
narrative before any network call, whatever the composer mode: no store
or storage operation is issued and the evidence list is unchanged. -/
theorem submit_requires_narrative (s : DrawerState) (criterionId : Option String)
    (cu dbError uploadError : Option String) (newRowId nowIso : String)
    (nowMs : Nat) (publicUrl : Option String)
    (hnarr : jsTrim s.narrative = "") :
    (EvidenceDrawer.submit s criterionId cu dbError uploadError
        newRowId nowIso nowMs publicUrl).2 = [] ∧
    (EvidenceDrawer.submit s criterionId cu dbError uploadError
        newRowId nowIso nowMs publicUrl).1.rows = s.rows := by
  rcases criterionId with _ | cid
  · exact ⟨rfl, rfl⟩
  · constructor <;> simp [EvidenceDrawer.submit, hnarr]

/-- C5 (witness): a whitespace-only narrative in link mode with a filled
URL still produces no operation. -/
theorem submit_requires_narrative_witness :
    (jsTrim "  " = "") ∧
    (EvidenceDrawer.submit
        ⟨[], "  ", ComposerMode.linkMode, "https://example.com/sop", Option.none, []⟩
        (Option.some "c1") Option.none Option.none Option.none "e1" "t1" 0
        Option.none).2 = [] :=
  ⟨by decide,
   (submit_requires_narrative
     ⟨[], "  ", ComposerMode.linkMode, "https://example.com/sop", Option.none, []⟩
     (Option.some "c1") Option.none Option.none Option.none "e1" "t1" 0
     Option.none (by decide)).1⟩

/-- C5 (counterexample): the App-level `addLink` flow takes no narrative
at all; with a non-empty url it inserts a link evidence row whose
narrative column is null, so an evidence write with an empty narrative
does reach the store through that flow. -/
theorem addLink_inserts_without_narrative :
    (addLinkV5 ⟨[], [], Option.none, [], Option.none⟩ "c1" "https://example.com/sop"
        Option.none "e9" "t9").2 =
      [StoreOp.insertEvidence
        { criterion_id := "c1", kind := EvKind.link, note := Option.none,
          url := Option.some "https://example.com/sop", file_path := Option.none,
          mime_type := Option.none, size_bytes := Option.none,
          created_by := Option.none }] ∧
    (addLinkV5 ⟨[], [], Option.none, [], Option.none⟩ "c1" "https://example.com/sop"
        Option.none "e9" "t9").2 ≠ [] := by
  constructor
  · rfl
  · decide

/-! ## C6: cover note on link/file evidence -/

/-- C6 (amended part): in the cover-note flows, one user action writes
two evidence rows: `addLink` (App.tsx line 1212) inserts the link row
and then a note-kind cover note "Link added: <url>", and `uploadFile`
(App.tsx line 2638) uploads the blob, inserts the file row and then a
note-kind cover note "File uploaded: <name>"; in both flows the local
evidence list grows by two rows. -/
theorem addLink_writes_cover_note (s : AppState) (criterionId url : String)
    (linkRowId coverRowId nowIso : String) (hv : jsTrim url ≠ "") :
    (addLinkV3 s criterionId url Option.none Option.none linkRowId coverRowId nowIso).2 =
      [StoreOp.insertEvidence
        { criterion_id := criterionId, kind := EvKind.link, note := Option.none,
          url := Option.some (jsTrim url), file_path := Option.none,
          mime_type := Option.none, size_bytes := Option.none,
          created_by := s.currentUserEmail },
       StoreOp.insertEvidence
        { criterion_id := criterionId, kind := EvKind.note,
          note := Option.some ("Link added: " ++ jsTrim url), url := Option.none,
          file_path := Option.none, mime_type := Option.none,
          size_bytes := Option.none, created_by := s.currentUserEmail }] ∧
    (addLinkV3 s criterionId url Option.none Option.none linkRowId coverRowId
        nowIso).1.notes.length = s.notes.length + 2 ∧
    (∀ (f : FileBlob) (nowMs : Nat) (publicUrl : Option String)
        (fileRowId coverRowId2 : String),
      (uploadFileV5 s criterionId f Option.none Option.none Option.none nowMs
          publicUrl fileRowId coverRowId2 nowIso).2 =
        [StoreOp.storageUpload (criterionId ++ "/" ++ toString nowMs ++ "-" ++ f.name),
         StoreOp.insertEvidence
          { criterion_id := criterionId, kind := EvKind.file, note := Option.none,
            url := publicUrl,
            file_path := Option.some (criterionId ++ "/" ++ toString nowMs ++ "-" ++ f.name),
            mime_type := (if f.mime == "" then Option.none else Option.some f.mime),
            size_bytes := Option.some f.size, created_by := s.currentUserEmail },
         StoreOp.insertEvidence
          { criterion_id := criterionId, kind := EvKind.note,
            note := Option.some ("File uploaded: " ++ f.name), url := Option.none,
            file_path := Option.none, mime_type := Option.none,
            size_bytes := Option.none, created_by := s.currentUserEmail }] ∧
      (uploadFileV5 s criterionId f Option.none Option.none Option.none nowMs
          publicUrl fileRowId coverRowId2 nowIso).1.notes.length =
        s.notes.length + 2) := by
  have hb : (jsTrim url == "") = false := beq_eq_false_iff_ne.mpr hv
  refine ⟨?_, ?_, ?_⟩
  · simp [addLinkV3, hb]
  · simp [addLinkV3, hb]
  · intro f nowMs publicUrl fileRowId coverRowId2
    exact ⟨rfl, by simp [uploadFileV5]⟩

/-- C6 (witness): adding the link `https://example.com/sop` through the
cover-note flow yields exactly the link insert followed by the cover
note "Link added: https://example.com/sop". -/
theorem addLink_writes_cover_note_witness :
    (addLinkV3 ⟨[], [], Option.none, [], Option.none⟩ "c1" "https://example.com/sop"
        Option.none Option.none "e1" "e2" "t1").2 =
      [StoreOp.insertEvidence
        { criterion_id := "c1", kind := EvKind.link, note := Option.none,
          url := Option.some (jsTrim "https://example.com/sop"), file_path := Option.none,
          mime_type := Option.none, size_bytes := Option.none,
          created_by := Option.none },
       StoreOp.insertEvidence
        { criterion_id := "c1", kind := EvKind.note,
          note := Option.some ("Link added: " ++ jsTrim "https://example.com/sop"),
          url := Option.none, file_path := Option.none, mime_type := Option.none,
          size_bytes := Option.none, created_by := Option.none }] :=
  (addLink_writes_cover_note ⟨[], [], Option.none, [], Option.none⟩ "c1"
    "https://example.com/sop" "e1" "e2" "t1" (by decide)).1

/-- C6 (counterexample): the later `addLink` flow (App.tsx line 2692)
writes a single evidence row and no cover note, so the two-row claim is
false of that flow. -/
theorem addLinkV5_no_cover_note :
    (addLinkV5 ⟨[], [], Option.none, [], Option.none⟩ "c1" "https://example.com/sop"
        Option.none "e1" "t1").2 =
      [StoreOp.insertEvidence
        { criterion_id := "c1", kind := EvKind.link, note := Option.none,
          url := Option.some "https://example.com/sop", file_path := Option.none,
          mime_type := Option.none, size_bytes := Option.none,
          created_by := Option.none }] ∧
    (addLinkV5 ⟨[], [], Option.none, [], Option.none⟩ "c1" "https://example.com/sop"
        Option.none "e1" "t1").1.notes.length = 1 ∧
    (addLinkV5 ⟨[], [], Option.none, [], Option.none⟩ "c1" "https://example.com/sop"
        Option.none "e1" "t1").1.notes.length ≠ 2 := by
  refine ⟨rfl, rfl, by decide⟩

/-! ## C7: selection sets and catalog partition -/

theorem mem_setAdd {l : List String} {id x : String} :
    x ∈ setAdd l id ↔ x = id ∨ x ∈ l := by
  unfold setAdd
  rcases h : l.contains id with _ | _ <;> simp_all

theorem mem_setDelete {l : List String} {id x : String} :
    x ∈ setDelete l id ↔ x ∈ l ∧ x ≠ id := by
  simp [setDelete]

theorem toggle_preserves_SelInv (s : AllocSelState) (hInv : SelInv s) (id : String) :
    SelInv (allocStep s (AllocEvent.toggle id)) := by
  obtain ⟨hAdd, hRem⟩ := hInv
  by_cases hex : id ∈ s.existing
  · have hc : s.existing.contains id = true := by simpa using hex
    simp only [allocStep, toggleForTemplate, hc, if_true]
    refine ⟨fun y hy => hAdd y hy, fun y hy => ?_⟩
    rcases hcc : s.selectedToRemove.contains id with _ | _ <;>
      simp only [hcc] at hy
    · simp only [Bool.false_eq_true, if_false] at hy
      rcases mem_setAdd.mp hy with rfl | hy'
      · exact hex
      · exact hRem y hy'
    · simp only [if_true] at hy
      exact hRem y (mem_setDelete.mp hy).1
  · have hc : s.existing.contains id = false := by simpa using hex
    simp only [allocStep, toggleForTemplate, hc, Bool.false_eq_true, if_false]
    refine ⟨fun y hy => ?_, fun y hy => hRem y hy⟩
    rcases hcc : s.selectedToAdd.contains id with _ | _ <;>
      simp only [hcc] at hy
    · simp only [Bool.false_eq_true, if_false] at hy
      rcases mem_setAdd.mp hy with rfl | hy'
      · exact hex
      · exact hAdd y hy'
    · simp only [if_true] at hy
      exact hAdd y (mem_setDelete.mp hy).1

theorem selectAll_preserves_outside (existing : List String) :
    ∀ (v acc : List String), (∀ x ∈ acc, x ∉ existing) →
      ∀ x ∈ v.foldl (fun acc id => if existing.contains id then acc else setAdd acc id) acc,
        x ∉ existing := by
  intro v
  induction v with
  | nil => intro acc h x hx; exact h x hx
  | cons a tl ih =>
    intro acc h x hx
    rw [List.foldl_cons] at hx
    refine ih _ ?_ x hx
    intro y hy
    rcases hc : existing.contains a with _ | _ <;> simp only [hc] at hy
    · simp only [Bool.false_eq_true, if_false] at hy
      rcases mem_setAdd.mp hy with rfl | hy'
      · intro hmem
        simp [hmem] at hc
      · exact h y hy'
    · simp only [if_true] at hy
      exact h y hy

/-- C7 (amended part): the catalog partitions (addable versus already
present) are disjoint and cover the catalog; every selection event that
leaves the existing set unchanged (toggle, select-all, the clear
buttons, failed commits) preserves the invariant that the add selection
only holds ids outside the existing set and the remove selection only
ids inside it; and under that invariant the two selections are
disjoint. -/
theorem selection_invariants (catalog : List CriteriaTemplate) (existing : List String)
    (s : AllocSelState) (hInv : SelInv s) :
    (∀ t, ¬ (t ∈ addablePart catalog existing ∧ t ∈ presentPart catalog existing)) ∧
    (∀ t, t ∈ catalog ↔ (t ∈ addablePart catalog existing ∨ t ∈ presentPart catalog existing)) ∧
    (∀ id, SelInv (allocStep s (AllocEvent.toggle id))) ∧
    (∀ v, SelInv (allocStep s (AllocEvent.selectAllVisible v))) ∧
    SelInv (allocStep s AllocEvent.clearAdd) ∧
    SelInv (allocStep s AllocEvent.clearRemove) ∧
    SelInv (allocStep s AllocEvent.commitAddFail) ∧
    SelInv (allocStep s AllocEvent.commitRemoveFail) ∧
    (∀ id ∈ s.selectedToAdd, id ∉ s.selectedToRemove) := by
  obtain ⟨hAdd, hRem⟩ := hInv
  refine ⟨?_, ?_, ?_, ?_, ?_, ?_, ?_, ?_, ?_⟩
  · intro t ⟨h1, h2⟩
    simp only [addablePart, presentPart, List.mem_filter] at h1 h2
    rcases h1 with ⟨-, h1b⟩
    rcases h2 with ⟨-, h2b⟩
    rw [h2b] at h1b
    exact absurd h1b (by decide)
  · intro t
    constructor
    · intro ht
      by_cases hc : t.id ∈ existing
      · exact Or.inr (by simp [presentPart, List.mem_filter, ht, hc])
      · exact Or.inl (by simp [addablePart, List.mem_filter, ht, hc])
    · intro h
      rcases h with h | h <;> simp only [addablePart, presentPart, List.mem_filter] at h <;>
        exact h.1
  · exact fun id => toggle_preserves_SelInv s ⟨hAdd, hRem⟩ id
  · intro v
    refine ⟨?_, fun y hy => hRem y hy⟩
    exact fun x hx => selectAll_preserves_outside s.existing v s.selectedToAdd hAdd x hx
  · exact ⟨by simp [allocStep], fun y hy => hRem y hy⟩
  · exact ⟨fun y hy => hAdd y hy, by simp [allocStep]⟩
  · exact ⟨fun y hy => hAdd y hy, fun y hy => hRem y hy⟩
  · exact ⟨fun y hy => hAdd y hy, fun y hy => hRem y hy⟩
  · intro id h1 h2
    exact hAdd id h1 (hRem id h2)

/-- C7 (witness): the partition disjointness applied at a one-template
catalog, a concrete template and a selection state satisfying the
invariant. -/
theorem selection_invariants_witness :
    ¬ (⟨"tmpl1", "T", Option.none, Option.none, "med", "not_started",
          Option.none, Option.none, true, Option.none, Option.none, Option.none⟩ ∈
            addablePart
              [⟨"tmpl1", "T", Option.none, Option.none, "med", "not_started",
                Option.none, Option.none, true, Option.none, Option.none, Option.none⟩]
              ["a"] ∧
        (⟨"tmpl1", "T", Option.none, Option.none, "med", "not_started",
          Option.none, Option.none, true, Option.none, Option.none, Option.none⟩ :
          CriteriaTemplate) ∈
            presentPart
              [⟨"tmpl1", "T", Option.none, Option.none, "med", "not_started",
                Option.none, Option.none, true, Option.none, Option.none, Option.none⟩]
              ["a"]) :=
  (selection_invariants
    [⟨"tmpl1", "T", Option.none, Option.none, "med", "not_started",
      Option.none, Option.none, true, Option.none, Option.none, Option.none⟩]
    ["a"] ⟨["a"], ["b"], ["a"]⟩
    ⟨by decide, by decide⟩).1
    ⟨"tmpl1", "T", Option.none, Option.none, "med", "not_started",
     Option.none, Option.none, true, Option.none, Option.none, Option.none⟩

/-- C7 (counterexample): the selections are not cleared when the
existing set is refreshed, so a reachable state (toggle a template for
add, switch to a project that already has it, toggle it again) holds
the same template id in both selection sets, violating containment and
disjointness. -/
theorem selection_overlap_reachable :
    AllocReachable ⟨["t"], ["t"], ["t"]⟩ ∧
    ¬ (∀ id ∈ (AllocSelState.mk ["t"] ["t"] ["t"]).selectedToAdd,
         id ∉ (AllocSelState.mk ["t"] ["t"] ["t"]).existing) ∧
    ("t" ∈ (AllocSelState.mk ["t"] ["t"] ["t"]).selectedToAdd ∧
     "t" ∈ (AllocSelState.mk ["t"] ["t"] ["t"]).selectedToRemove) := by
  refine ⟨?_, by decide, by decide⟩
  have h0 := AllocReachable.init
  have h1 := AllocReachable.step _ (AllocEvent.toggle "t") h0
  have h2 := AllocReachable.step _ (AllocEvent.refresh ["t"]) h1
  have h3 := AllocReachable.step _ (AllocEvent.toggle "t") h2
  exact h3

/-! ## C8: batch commit failure semantics -/

/-- C8: when the batched insert or the batched delete fails, the whole
operation aborts: exactly one batched operation was issued (never
per-row retries), exactly one error alert is surfaced, the store is
unchanged, and the selection state (add selection, remove selection,
draft rows) is exactly as before the attempt. -/
theorem commit_failure_preserves_selection (s : AllocState) (store : List StoreCriterion)
    (pid oid msg : String)
    (hpid : s.projectId = Option.some pid) (hoid : s.orgId = Option.some oid)
    (hdraft : s.draftRows ≠ []) (hrem : s.selectedToRemove ≠ []) :
    confirmInsert s store (Option.some msg) =
      ({ s with inserting := false,
                alerts := s.alerts ++ ["Failed to add criteria: " ++ msg] },
       store, [StoreOp.insertCriteria s.draftRows]) ∧
    confirmRemove s store (Option.some msg) =
      ({ s with removing := false,
                alerts := s.alerts ++ ["Failed to remove: " ++ msg] },
       store, [StoreOp.deleteCriteria pid s.selectedToRemove]) := by
  have hde : s.draftRows.isEmpty = false := by
    cases h : s.draftRows with
    | nil => exact absurd h hdraft
    | cons a l => rfl
  have hre : s.selectedToRemove.isEmpty = false := by
    cases h : s.selectedToRemove with
    | nil => exact absurd h hrem
    | cons a l => rfl
  constructor
  · simp [confirmInsert, hpid, hoid, hde]
  · simp [confirmRemove, hpid, hre]

/-- C8 (witness): the failure equations applied to a concrete allocator
state with one draft row and one selected removal. -/
theorem commit_failure_preserves_selection_witness :
    confirmInsert
        ⟨Option.some "p1", Option.some "o1", [], ["tX"], ["tY"],
         [⟨"tX", "p1", "o1", "T", Option.none, Option.none, "med", "not_started",
           true, Option.none, ⟨"template", "t0", 1⟩, []⟩],
         true, false, false, false, []⟩ [] (Option.some "boom") =
      (⟨Option.some "p1", Option.some "o1", [], ["tX"], ["tY"],
        [⟨"tX", "p1", "o1", "T", Option.none, Option.none, "med", "not_started",
          true, Option.none, ⟨"template", "t0", 1⟩, []⟩],
        true, false, false, false, ["Failed to add criteria: boom"]⟩,
       [],
       [StoreOp.insertCriteria
         [⟨"tX", "p1", "o1", "T", Option.none, Option.none, "med", "not_started",
           true, Option.none, ⟨"template", "t0", 1⟩, []⟩]]) :=
  (commit_failure_preserves_selection
    ⟨Option.some "p1", Option.some "o1", [], ["tX"], ["tY"],
     [⟨"tX", "p1", "o1", "T", Option.none, Option.none, "med", "not_started",
       true, Option.none, ⟨"template", "t0", 1⟩, []⟩],
     true, false, false, false, []⟩ [] "p1" "o1" "boom" rfl rfl (by decide)
    (by decide)).1

/-! ## C9: existing set is re-fetched from the store after commits -/

theorem mem_refreshExisting (store : List StoreCriterion) (pid tid : String) :
    tid ∈ refreshExisting store (Option.some pid) ↔
      ∃ r ∈ store, r.project_id = pid ∧ r.template_id = Option.some tid ∧ tid ≠ "" := by
  simp only [refreshExisting, List.mem_filterMap, List.mem_filter]
  constructor
  · rintro ⟨r, ⟨hr, hp⟩, hf⟩
    rcases hrt : r.template_id with _ | t
    · rw [hrt] at hf
      exact absurd hf (by simp)
    · rw [hrt] at hf
      by_cases ht : t = ""
      · rw [ht] at hf
        exact absurd hf (by simp)
      · have hb : (t == "") = false := beq_eq_false_iff_ne.mpr ht
        simp only [hb, Bool.false_eq_true, if_false, Option.some.injEq] at hf
        subst hf
        exact ⟨r, hr, by simpa using hp, hrt, ht⟩
  · rintro ⟨r, hr, hp, hrt, hne⟩
    refine ⟨r, ⟨hr, by simp [hp]⟩, ?_⟩
    rw [hrt]
    have hb : (tid == "") = false := beq_eq_false_iff_ne.mpr hne
    simp [hb]

/-- C9: after a successful `confirmInsert`, and again after a subsequent
successful `confirmRemove`, the existing template-id set held in state
coincides exactly with a direct re-query of the store criteria of the
project, null template ids ignored. -/
theorem commit_refetches_existing (s : AllocState) (store : List StoreCriterion)
    (pid oid tid : String)
    (hpid : s.projectId = Option.some pid) (hoid : s.orgId = Option.some oid)
    (hdraft : s.draftRows ≠ []) (hrem : s.selectedToRemove ≠ []) :
    (tid ∈ (confirmInsert s store Option.none).1.existing ↔
      ∃ r ∈ (confirmInsert s store Option.none).2.1,
        r.project_id = pid ∧ r.template_id = Option.some tid ∧ tid ≠ "") ∧
    (tid ∈ (confirmRemove (confirmInsert s store Option.none).1
              (confirmInsert s store Option.none).2.1 Option.none).1.existing ↔
      ∃ r ∈ (confirmRemove (confirmInsert s store Option.none).1
              (confirmInsert s store Option.none).2.1 Option.none).2.1,
        r.project_id = pid ∧ r.template_id = Option.some tid ∧ tid ≠ "") := by
  have hde : s.draftRows.isEmpty = false := by
    cases h : s.draftRows with
    | nil => exact absurd h hdraft
    | cons a l => rfl
  have hre : s.selectedToRemove.isEmpty = false := by
    cases h : s.selectedToRemove with
    | nil => exact absurd h hrem
    | cons a l => rfl
  constructor
  · simp only [confirmInsert, hpid, hoid, hde, Bool.false_eq_true, if_false]
    exact mem_refreshExisting _ pid tid
  · simp only [confirmInsert, confirmRemove, hpid, hoid, hde, hre,
      Bool.false_eq_true, if_false]
    exact mem_refreshExisting _ pid tid

/-- C9 (witness): the after-insert clause applied to a concrete state
and an empty store. -/
theorem commit_refetches_existing_witness :
    "tX" ∈ (confirmInsert
        ⟨Option.some "p1", Option.some "o1", [], ["tX"], ["tY"],
         [⟨"tX", "p1", "o1", "T", Option.none, Option.none, "med", "not_started",
           true, Option.none, ⟨"template", "t0", 1⟩, []⟩],
         true, false, false, false, []⟩ [] Option.none).1.existing ↔
      ∃ r ∈ (confirmInsert
        ⟨Option.some "p1", Option.some "o1", [], ["tX"], ["tY"],
         [⟨"tX", "p1", "o1", "T", Option.none, Option.none, "med", "not_started",
           true, Option.none, ⟨"template", "t0", 1⟩, []⟩],
         true, false, false, false, []⟩ [] Option.none).2.1,
        r.project_id = "p1" ∧ r.template_id = Option.some "tX" ∧ "tX" ≠ "" :=
  (commit_refetches_existing
    ⟨Option.some "p1", Option.some "o1", [], ["tX"], ["tY"],
     [⟨"tX", "p1", "o1", "T", Option.none, Option.none, "med", "not_started",
       true, Option.none, ⟨"template", "t0", 1⟩, []⟩],
     true, false, false, false, []⟩ [] "p1" "o1" "tX" rfl rfl (by decide)
    (by decide)).1

/-! ## C10: fallback defaults in the synthesized rows -/

/-- C10: every selected, addable template produces a draft row whose
severity falls back to "med" when the template severity is empty, whose
status falls back to "not_started" when the template default status is
empty, whose evidence-required flag falls back to true when the
template flag is null or undefined, and whose metadata falls back to
the empty object when the template has none. -/
theorem buildDraftRows_defaults (projectId orgId : Option String)
    (projectMap : List (String × Project)) (templates : List CriteriaTemplate)
    (selectedToAdd existing : List String) (anchor : DueAnchor) (nowIso : String)
    (pid oid : String) (p : Project) (t : CriteriaTemplate)
    (hpid : projectId = Option.some pid) (hoid : orgId = Option.some oid)
    (hlook : projectMap.lookup pid = Option.some p)
    (ht : t ∈ templates) (hsel : t.id ∈ selectedToAdd) (hnex : t.id ∉ existing) :
    ∃ row ∈ buildDraftRows projectId orgId projectMap templates selectedToAdd
        existing anchor nowIso,
      row.template_id = t.id ∧
      (t.severity = "" → row.severity = "med") ∧
      (t.default_status = "" → row.status = "not_started") ∧
      (t.evidence_required = Option.none → row.evidence_required = true) ∧
      (t.meta = Option.none → row.meta = []) := by
  subst hpid hoid
  simp only [buildDraftRows, hlook]
  refine ⟨_, List.mem_map_of_mem _ (List.mem_filter.mpr ⟨ht, ?_⟩), rfl, ?_, ?_, ?_, ?_⟩
  · simp [hsel, hnex]
  · intro h
    simp [h]
  · intro h
    simp [h]
  · intro h
    simp [h]
  · intro h
    simp [h]

/-- C10 (witness): a template with empty severity, empty default status,
null evidence-required flag and no metadata yields a draft row reading
"med", "not_started", true and the empty object. -/
theorem buildDraftRows_defaults_witness :
    ∃ row ∈ buildDraftRows (Option.some "p1") (Option.some "o1")
        [("p1", ⟨"p1", "o1", "P", Option.none, Option.none⟩)]
        [⟨"tX", "T", Option.none, Option.none, "", "", Option.none, Option.none,
          true, Option.none, Option.none, Option.none⟩]
        ["tX"] [] DueAnchor.go_live "t0",
      row.template_id = "tX" ∧
      ("" = "" → row.severity = "med") ∧
      ("" = "" → row.status = "not_started") ∧
      ((Option.none : Option Bool) = Option.none → row.evidence_required = true) ∧
      ((Option.none : Option (List (String × String))) = Option.none → row.meta = []) :=
  buildDraftRows_defaults (Option.some "p1") (Option.some "o1")
    [("p1", ⟨"p1", "o1", "P", Option.none, Option.none⟩)]
    [⟨"tX", "T", Option.none, Option.none, "", "", Option.none, Option.none,
      true, Option.none, Option.none, Option.none⟩]
    ["tX"] [] DueAnchor.go_live "t0" "p1" "o1"
    ⟨"p1", "o1", "P", Option.none, Option.none⟩
    ⟨"tX", "T", Option.none, Option.none, "", "", Option.none, Option.none,
     true, Option.none, Option.none, Option.none⟩
    rfl rfl (by decide) (by decide) (by decide) (by decide)
